import Mathlib

/-!
Verification development for the Mycodo `SensorController`
(`mycodo/controller_sensor.py`, commit 547f6d9) and the bus-lock discipline of
`mycodo/sensors/mh_z19.py`.  Python floats are modelled as rationals (ℚ),
dictionaries as functions, and exception/log behaviour as explicit result
values.  Each definition is a shallow embedding of the cited source lines.
-/

namespace ControllerSensor

/-! ## ADC measurement conversion (`update_measure`, lines 748–778) -/

/-- Analog-to-digital converter configuration fields of the `Sensor` record
used by `update_measure` (`adc_volts_min`, `adc_volts_max`, `adc_units_min`,
`adc_units_max`, `adc_inverse_unit_scale`). -/
structure AdcConfig where
  adc_volts_min : ℚ
  adc_volts_max : ℚ
  adc_units_min : ℚ
  adc_units_max : ℚ
  adc_inverse_unit_scale : Bool

/-- Lines 753–758: clamp the raw voltage reading into the configured
voltage bounds. -/
def clampVoltage (cfg : AdcConfig) (voltage : ℚ) : ℚ :=
  if voltage < cfg.adc_volts_min then cfg.adc_volts_min
  else if voltage > cfg.adc_volts_max then cfg.adc_volts_max
  else voltage

/-- Lines 750–778 of `update_measure`: the voltage→unit conversion applied to
a raw ADC voltage.  `diff_voltage` and `diff_units` are absolute differences
as in the source; the converted value is clamped into the unit bounds. -/
def convertUnits (cfg : AdcConfig) (voltage : ℚ) : ℚ :=
  let diff_voltage := |cfg.adc_volts_max - cfg.adc_volts_min|
  let measured_voltage := clampVoltage cfg voltage
  let percent_diff := (measured_voltage - cfg.adc_volts_min) / diff_voltage
  let diff_units := |cfg.adc_units_max - cfg.adc_units_min|
  let converted_units :=
    if cfg.adc_inverse_unit_scale then
      cfg.adc_units_max - diff_units * percent_diff
    else
      cfg.adc_units_min + diff_units * percent_diff
  if converted_units < cfg.adc_units_min then cfg.adc_units_min
  else if converted_units > cfg.adc_units_max then cfg.adc_units_max
  else converted_units

/-- The conversion exactly as the specification words it: clamp the raw
voltage, compute `percent = (clamped - volts_min) / (volts_max - volts_min)`,
compute `unit` by direct or inverse linear scaling, clamp `unit` into
`[units_min, units_max]`.  Used only to compare with `convertUnits`, which is
embedded from the source. -/
def convertUnitsSpec (cfg : AdcConfig) (voltage : ℚ) : ℚ :=
  let clamped := clampVoltage cfg voltage
  let percent := (clamped - cfg.adc_volts_min) /
    (cfg.adc_volts_max - cfg.adc_volts_min)
  let unit :=
    if cfg.adc_inverse_unit_scale then
      cfg.adc_units_max - percent * (cfg.adc_units_max - cfg.adc_units_min)
    else
      cfg.adc_units_min + percent * (cfg.adc_units_max - cfg.adc_units_min)
  if unit < cfg.adc_units_min then cfg.adc_units_min
  else if unit > cfg.adc_units_max then cfg.adc_units_max
  else unit

/-! ## Threshold rule evaluation (`check_conditionals`, lines 513–533, and
`get_last_measurement`, lines 866–884) -/

/-- The configured comparison direction of a threshold conditional
(`if_sensor_direction`). -/
inductive Direction where
  | above
  | below
deriving DecidableEq, Repr

/-- Python truthiness of a float: `0.0` is falsy, every other value truthy. -/
def truthy (v : ℚ) : Bool := v != 0

/-- Lines 877–884: `read_last_influxdb` returns either a (time, value) pair or
nothing; `get_last_measurement` extracts the value component (`[1]`) when the
result is truthy (a non-empty tuple), else returns `None`. -/
def get_last_measurement (raw : Option (ℚ × ℚ)) : Option ℚ :=
  match raw with
  | some last_measurement => some last_measurement.2
  | none => none

/-- Lines 513–533 of `check_conditionals`, threshold branch: the rule fires
iff `last_measurement` is truthy (present and nonzero) and the strict
comparison against the setpoint in the configured direction holds; otherwise
the rule is skipped (the source logs and returns 1). -/
def thresholdFires (direction : Direction) (setpoint : ℚ)
    (last_measurement : Option ℚ) : Bool :=
  match last_measurement with
  | none => false
  | some v =>
      truthy v &&
        ((decide (direction = .above) && decide (v > setpoint)) ||
          (decide (direction = .below) && decide (v < setpoint)))

/-! ## Transient acquisition failure counting (`update_measure`, lines 787–807) -/

/-- One invocation of the sensor driver inside `update_measure`: either
`measure_sensor.next()` returns normally or it raises `StopIteration`. -/
inductive ReadEvent where
  | success
  | stopIteration
deriving DecidableEq, Repr

/-- The part of the controller state read and written by the failure-counting
logic: `self.stop_iteration_counter`. -/
structure MeasureState where
  stop_iteration_counter : ℕ
deriving DecidableEq, Repr

/-- Lines 790–803: on a successful read the counter is reset to 0 (the source
guards the assignment with a truthiness test, which has the same effect); on
`StopIteration` the counter is incremented, and once it exceeds 2 it is reset
to 0 and one escalation error is logged.  The boolean records whether the
escalation message was logged on this read. -/
def updateMeasureRead (s : MeasureState) : ReadEvent → MeasureState × Bool
  | .success => (⟨0⟩, false)
  | .stopIteration =>
      let c := s.stop_iteration_counter + 1
      if c > 2 then (⟨0⟩, true) else (⟨c⟩, false)

/-- Fold `updateMeasureRead` over a sequence of reads, returning the final
state and the number of escalation messages logged. -/
def runReads (s : MeasureState) : List ReadEvent → MeasureState × ℕ
  | [] => (s, 0)
  | e :: es =>
      let r := updateMeasureRead s e
      let rest := runReads r.1 es
      (rest.1, (if r.2 then 1 else 0) + rest.2)

/-! ## Bus lock acquisition (`setup_lock`, lines 819–858; the same loop
appears in `MHZ19Sensor.read`, `mh_z19.py` lines 95–110) -/

/-- Who currently holds the named lock file: nobody, this controller, or a
competing process that never releases it of its own accord. -/
inductive LockHolder where
  | me
  | competitor
deriving DecidableEq, Repr

/-- The state of one named lock file. -/
structure LockState where
  holder : Option LockHolder
deriving DecidableEq, Repr

/-- `lock.i_am_locking()`. -/
def i_am_locking (s : LockState) : Bool := s.holder == some .me

/-- `lock.acquire(timeout=60)` in the scenario where any competing holder is
permanent: taking a free lock (or one we already hold) succeeds; if the
competitor holds it the call waits out the 60-second timeout and raises,
modelled as `Except.error`. -/
def acquire_timeout (s : LockState) : Except Unit LockState :=
  match s.holder with
  | none => .ok ⟨some .me⟩
  | some .me => .ok s
  | some .competitor => .error ()

/-- `lock.break_lock()`: destroys the existing lock file. -/
def break_lock (_ : LockState) : LockState := ⟨none⟩

/-- `lock.acquire()` with no timeout: takes a free lock; if the permanent
competitor holds it the call never returns (`none`). -/
def acquire_nowait (s : LockState) : Option LockState :=
  match s.holder with
  | none => some ⟨some .me⟩
  | some .me => some s
  | some .competitor => none

/-- Lines 823–844, the `while not i_am_locking()` loop of `setup_lock`: each
iteration tries `acquire(timeout=60)`; on the timeout exception it logs,
breaks the lock, and calls `acquire()` unconditionally.  `fuel` bounds the
number of loop iterations modelled; the result carries the final lock state
and the number of forced breaks performed, `none` meaning the loop was still
running (or blocked) after `fuel` iterations. -/
def setup_lock_loop (fuel : ℕ) (s : LockState) (breaks : ℕ) :
    Option (LockState × ℕ) :=
  match fuel with
  | 0 => none
  | fuel + 1 =>
    if i_am_locking s then some (s, breaks)
    else
      match acquire_timeout s with
      | .ok s' => setup_lock_loop fuel s' breaks
      | .error _ =>
        match acquire_nowait (break_lock s) with
        | some s' => setup_lock_loop fuel s' (breaks + 1)
        | none => none

/-! ## Email notification rate limiting (`__init__` lines 211–214,
`check_conditionals` lines 636–670) -/

/-- The controller state read and written by the email action: the single
controller-wide `self.email_count` and the per-conditional
`self.smtp_wait_timer` dictionary (keyed by conditional id). -/
structure EmailState where
  email_count : ℕ
  smtp_wait_timer : ℕ → ℚ

/-- Lines 639–670 of `check_conditionals`, email action for conditional
`cond_id` at wall-clock time `now`, with hourly maximum `smtp_max_count`:
if the count has reached the maximum and the window of this conditional has
not elapsed, the notification is suppressed and the remaining wait time
`smtp_wait_timer[cond_id] - now` is logged; otherwise, if the window has
elapsed, the count is reset and the window extended to `now + 3600` first,
and the email is sent.  In every case `email_count` is incremented
afterwards.  Returns the new state, whether the email was sent, and the
logged wait time when suppressed. -/
def email_action (smtp_max_count : ℕ) (cond_id : ℕ) (now : ℚ)
    (s : EmailState) : EmailState × Bool × Option ℚ :=
  if smtp_max_count ≤ s.email_count ∧ now < s.smtp_wait_timer cond_id then
    ({ s with email_count := s.email_count + 1 }, false,
      some (s.smtp_wait_timer cond_id - now))
  else
    let s' :=
      if s.smtp_wait_timer cond_id < now then
        { email_count := 0,
          smtp_wait_timer := fun i =>
            if i = cond_id then now + 3600 else s.smtp_wait_timer i }
      else s
    ({ s' with email_count := s'.email_count + 1 }, true, none)

/-- A sequence of email-action trigger events, each a (conditional id, time)
pair, folded through `email_action`; returns the final state and the list of
sent flags. -/
def email_events (smtp_max_count : ℕ) (s : EmailState) :
    List (ℕ × ℚ) → EmailState × List Bool
  | [] => (s, [])
  | e :: es =>
      let r := email_action smtp_max_count e.1 e.2 s
      let rest := email_events smtp_max_count r.1 es
      (rest.1, r.2.1 :: rest.2)

/-! ## Conditional reconfiguration (`setup_sensor_conditionals`,
lines 911–965) -/

/-- The `cond_mod` argument of `setup_sensor_conditionals`: `setup` at
construction, `add`/`del`/`mod` on reconfiguration, anything else rejected. -/
inductive CondMod where
  | setup
  | add
  | del
  | mod
  | invalid
deriving DecidableEq, Repr

/-- One active `Conditional` record, restricted to the fields that feed the
timers: its id and `if_sensor_period`. -/
structure CondRecord where
  id : ℕ
  if_sensor_period : ℚ

/-- The timer dictionaries of the controller touched by
`setup_sensor_conditionals`: `self.cond_timer` and `self.smtp_wait_timer`
(both keyed by conditional id; `none` models a missing key). -/
structure CondTimers where
  cond_timer : ℕ → Option ℚ
  smtp_wait_timer : ℕ → Option ℚ

/-- Lines 936–962 of `setup_sensor_conditionals` at wall-clock time `now`:
for `cond_mod = 'setup'` both timer dictionaries are emptied first
(lines 937–938); an unrecognized `cond_mod` returns early (line 946,
modelled as `none`); then for EVERY recognized `cond_mod` — including the
reconfiguration modes `add`/`del`/`mod` — the loop over the active
conditionals assigns `cond_timer[id] = now + if_sensor_period` and
`smtp_wait_timer[id] = now + 3600` (lines 961–962). -/
def setup_sensor_conditionals (cond_mod : CondMod) (now : ℚ)
    (conds : List CondRecord) (s : CondTimers) : Option CondTimers :=
  match cond_mod with
  | .invalid => none
  | _ =>
    let s0 :=
      if cond_mod = .setup then
        CondTimers.mk (fun _ => none) (fun _ => none)
      else s
    some (conds.foldl
      (fun st c =>
        CondTimers.mk
          (fun i => if i = c.id then some (now + c.if_sensor_period)
            else st.cond_timer i)
          (fun i => if i = c.id then some (now + 3600)
            else st.smtp_wait_timer i))
      s0)

/-! ## The `run()` poll loop (lines 379–470) and the conditional action loop
(`check_conditionals`, lines 545–680) -/

/-- The outcome of one tick body of the `while self.running` loop: it either
completes normally or raises an uncaught exception. -/
inductive TickOutcome where
  | ok
  | raises
deriving DecidableEq, Repr

/-- What `run()` did with a given sequence of tick outcomes. -/
structure RunResult where
  ticks_executed : ℕ
  exception_logged : Bool
deriving DecidableEq, Repr

/-- Lines 379–470 of `run()`: the `try`/`except` encloses the whole
`while self.running` loop, so ticks execute in order until one raises; the
exception then propagates out of the loop, is caught at the `run()` boundary,
logged (lines 465–470), and `run()` returns — the raising tick is the last
tick executed. -/
def runLoop : List TickOutcome → RunResult
  | [] => ⟨0, false⟩
  | .ok :: rest =>
      let r := runLoop rest
      ⟨r.ticks_executed + 1, r.exception_logged⟩
  | .raises :: _ => ⟨1, true⟩

/-- The outcome of executing one conditional action in the `for cond_action
in cond_actions` loop of `check_conditionals`: it either completes normally
or raises an exception. -/
inductive ActionOutcome where
  | ok
  | raises
deriving DecidableEq, Repr

/-- Lines 549–678 of `check_conditionals`: the action loop has no per-action
exception handler, so actions execute in list order until one raises; the
exception propagates out of `check_conditionals`, leaving the remaining
actions unexecuted.  Returns how many actions were executed and whether the
whole list completed. -/
def run_actions : List ActionOutcome → ℕ × Bool
  | [] => (0, true)
  | .ok :: rest =>
      let r := run_actions rest
      (r.1 + 1, r.2)
  | .raises :: _ => (1, false)

/-! ## Theorems -/

/-- C2: for every analog-converter reading with `volts_min < volts_max` and
`units_min < units_max`, the source conversion (clamp voltage, linear or
inverse-linear scale, clamp units) coincides with the conversion as the
specification words it, and the resulting unit value always lies within
`[units_min, units_max]`, for every raw voltage. -/
theorem C2_adc_conversion (cfg : AdcConfig) (voltage : ℚ)
    (hv : cfg.adc_volts_min < cfg.adc_volts_max)
    (hu : cfg.adc_units_min < cfg.adc_units_max) :
    convertUnits cfg voltage = convertUnitsSpec cfg voltage ∧
    cfg.adc_units_min ≤ convertUnits cfg voltage ∧
    convertUnits cfg voltage ≤ cfg.adc_units_max := by
  have habsv : |cfg.adc_volts_max - cfg.adc_volts_min|
      = cfg.adc_volts_max - cfg.adc_volts_min := abs_of_pos (by linarith)
  have habsu : |cfg.adc_units_max - cfg.adc_units_min|
      = cfg.adc_units_max - cfg.adc_units_min := abs_of_pos (by linarith)
  refine ⟨?_, ?_⟩
  · simp only [convertUnits, convertUnitsSpec, habsv, habsu, mul_comm]
  · simp only [convertUnits]
    split_ifs <;> exact ⟨by linarith, by linarith⟩

/-- Witness for C2 at a concrete configuration (volts 0–5, units 0–100,
direct scale) and an out-of-range raw voltage 7. -/
theorem C2_adc_conversion_witness :
    ((0:ℚ) < 5 ∧ (0:ℚ) < 100) ∧
    (convertUnits ⟨0, 5, 0, 100, false⟩ 7 = convertUnitsSpec ⟨0, 5, 0, 100, false⟩ 7 ∧
      (0:ℚ) ≤ convertUnits ⟨0, 5, 0, 100, false⟩ 7 ∧
      convertUnits ⟨0, 5, 0, 100, false⟩ 7 ≤ 100) :=
  ⟨⟨by norm_num, by norm_num⟩,
    C2_adc_conversion ⟨0, 5, 0, 100, false⟩ 7 (by norm_num) (by norm_num)⟩

/-- C3: starting from a zero counter, one or two consecutive `StopIteration`
failures log no escalation; exactly three consecutive failures log exactly
one escalation and leave the counter reset to zero; and any successful read
resets the counter to zero. -/
theorem C3_failure_escalation_hysteresis :
    (runReads ⟨0⟩ [.stopIteration]).2 = 0 ∧
    (runReads ⟨0⟩ [.stopIteration, .stopIteration]).2 = 0 ∧
    (runReads ⟨0⟩ [.stopIteration, .stopIteration, .stopIteration]).2 = 1 ∧
    (runReads ⟨0⟩ [.stopIteration, .stopIteration, .stopIteration]).1
      = ⟨0⟩ ∧
    ∀ s : MeasureState, (updateMeasureRead s .success).1 = ⟨0⟩ :=
  ⟨by decide, by decide, by decide, by decide, fun s => rfl⟩

/-- C4: a threshold rule whose most recent measurement equals the setpoint
exactly does not fire, in either direction: the comparison is strict. -/
theorem C4_setpoint_equality_no_fire (direction : Direction) (setpoint : ℚ) :
    thresholdFires direction setpoint (some setpoint) = false := by
  cases direction <;> simp [thresholdFires]

/-- C5: with the named lock permanently held by a competitor, the
`setup_lock` acquisition loop performs exactly one forced break of the
existing lock followed by one unconditional retry, after which acquisition
succeeds (this controller holds the lock). -/
theorem C5_lock_break_retry_once (fuel : ℕ) (h : 2 ≤ fuel) :
    setup_lock_loop fuel ⟨some .competitor⟩ 0 = some (⟨some .me⟩, 1) := by
  obtain ⟨n, rfl⟩ : ∃ n, fuel = n + 2 := ⟨fuel - 2, by omega⟩
  rfl

/-- Witness for C5 at the minimal sufficient iteration bound. -/
theorem C5_lock_break_retry_once_witness :
    2 ≤ 2 ∧ setup_lock_loop 2 ⟨some .competitor⟩ 0 = some (⟨some .me⟩, 1) :=
  ⟨by decide, C5_lock_break_retry_once 2 (by decide)⟩

/-- C10: when the most recent stored sample exists but its value is exactly
zero, the truthiness test in `check_conditionals` treats it like a missing
measurement: the rule is skipped without firing, for every direction and
setpoint. -/
theorem C10_zero_value_treated_as_absent (direction : Direction)
    (setpoint t : ℚ) :
    thresholdFires direction setpoint (get_last_measurement (some (t, 0)))
        = false ∧
    thresholdFires direction setpoint (get_last_measurement (some (t, 0)))
        = thresholdFires direction setpoint none := by
  cases direction <;> simp [thresholdFires, get_last_measurement, truthy]

/-- C6: for a single rule with an email action and hourly maximum 3, four
trigger events within one rolling hour window (all before the window reset
time `W`) produce exactly three sent notifications and one suppressed
notification whose remaining wait time is logged; and whenever the
rolling-hour boundary has passed, the counter is reset and the window
extended by one hour before sending. -/
theorem C6_hourly_email_cap (W t1 t2 t3 t4 : ℚ)
    (h1 : t1 < W) (h2 : t2 < W) (h3 : t3 < W) (h4 : t4 < W) :
    (email_events 3 ⟨0, fun _ => W⟩ [(1, t1), (1, t2), (1, t3), (1, t4)]).2
        = [true, true, true, false] ∧
    (email_action 3 1 t4
        (email_events 3 ⟨0, fun _ => W⟩ [(1, t1), (1, t2), (1, t3)]).1).2.2
        = some (W - t4) ∧
    (∀ (m cond_id : ℕ) (t : ℚ) (s : EmailState),
      s.smtp_wait_timer cond_id < t →
        email_action m cond_id t s =
          (⟨1, fun i => if i = cond_id then t + 3600
              else s.smtp_wait_timer i⟩, true, none)) := by
  refine ⟨?_, ?_, ?_⟩
  · simp [email_events, email_action, h1, h2, h3, h4,
      h1.asymm, h2.asymm, h3.asymm, h4.asymm]
  · simp [email_events, email_action, h1, h2, h3, h4,
      h1.asymm, h2.asymm, h3.asymm, h4.asymm]
  · intro m cond_id t s hst
    have hnot : ¬(m ≤ s.email_count ∧ t < s.smtp_wait_timer cond_id) :=
      fun hc => absurd hc.2 hst.asymm
    simp [email_action, hnot, hst]

/-- Witness for C6 with a one-hour window opening at 3600 and trigger events
at times 10, 20, 30, 40. -/
theorem C6_hourly_email_cap_witness :
    ((10:ℚ) < 3600 ∧ (20:ℚ) < 3600 ∧ (30:ℚ) < 3600 ∧ (40:ℚ) < 3600) ∧
    (email_events 3 ⟨0, fun _ => 3600⟩ [(1, 10), (1, 20), (1, 30), (1, 40)]).2
      = [true, true, true, false] :=
  ⟨⟨by norm_num, by norm_num, by norm_num, by norm_num⟩,
    (C6_hourly_email_cap 3600 10 20 30 40 (by norm_num) (by norm_num)
      (by norm_num) (by norm_num)).1⟩

/-- C1 counterexample: with a first tick that raises and a second tick
pending, the exception is caught and logged, but only one of the two ticks
executes — the loop does not continue to the next tick. -/
theorem C1_counterexample_loop_terminates :
    (runLoop [.raises, .ok]).exception_logged = true ∧
    (runLoop [.raises, .ok]).ticks_executed = 1 ∧
    [TickOutcome.raises, TickOutcome.ok].length = 2 := by
  exact ⟨rfl, rfl, rfl⟩

/-- C1 amended: an uncaught exception inside a tick is caught at the `run()`
boundary — outside the `while` loop — and logged, after which the loop
terminates: the ticks before the raising one and the raising tick itself are
the only ticks executed; with no raising tick every tick executes and
nothing is logged. -/
theorem C1_exception_caught_loop_ends (pre post : List TickOutcome)
    (hpre : ∀ t ∈ pre, t = TickOutcome.ok) :
    runLoop (pre ++ .raises :: post) = ⟨pre.length + 1, true⟩ ∧
    runLoop pre = ⟨pre.length, false⟩ := by
  induction pre with
  | nil => exact ⟨rfl, rfl⟩
  | cons a as ih =>
      have ha : a = TickOutcome.ok := hpre a (by simp)
      have has : ∀ t ∈ as, t = TickOutcome.ok :=
        fun t ht => hpre t (by simp [ht])
      obtain ⟨ih1, ih2⟩ := ih has
      subst ha
      refine ⟨?_, ?_⟩
      · simp [runLoop, ih1]
      · simp [runLoop, ih2]

/-- Witness for the amended C1: one clean tick, then a raising tick, then one
pending tick. -/
theorem C1_exception_caught_loop_ends_witness :
    (∀ t ∈ [TickOutcome.ok], t = TickOutcome.ok) ∧
    runLoop ([TickOutcome.ok] ++ .raises :: [TickOutcome.ok])
      = ⟨[TickOutcome.ok].length + 1, true⟩ :=
  ⟨by decide,
    (C1_exception_caught_loop_ends [TickOutcome.ok] [TickOutcome.ok]
      (by decide)).1⟩

/-- C9 counterexample: a rule whose first action raises and whose second
action would succeed executes only one of its two actions — the failure
prevents the subsequent action. -/
theorem C9_counterexample_action_aborts :
    (run_actions [.raises, .ok]).1 = 1 ∧
    (run_actions [.raises, .ok]).2 = false ∧
    [ActionOutcome.raises, ActionOutcome.ok].length = 2 := by
  exact ⟨rfl, rfl, rfl⟩

/-- C9 amended: the action loop of `check_conditionals` has no per-action
exception handler, so a raised exception during one action propagates and
aborts the remaining actions of the same rule: exactly the actions up to and
including the raising one execute; with no raising action the whole list
executes. -/
theorem C9_action_failure_aborts_rest (pre post : List ActionOutcome)
    (hpre : ∀ a ∈ pre, a = ActionOutcome.ok) :
    run_actions (pre ++ .raises :: post) = (pre.length + 1, false) ∧
    run_actions pre = (pre.length, true) := by
  induction pre with
  | nil => exact ⟨rfl, rfl⟩
  | cons a as ih =>
      have ha : a = ActionOutcome.ok := hpre a (by simp)
      have has : ∀ x ∈ as, x = ActionOutcome.ok :=
        fun x hx => hpre x (by simp [hx])
      obtain ⟨ih1, ih2⟩ := ih has
      subst ha
      refine ⟨?_, ?_⟩
      · simp [run_actions, ih1]
      · simp [run_actions, ih2]

/-- Witness for the amended C9: one succeeding action, then a raising one,
then one pending action. -/
theorem C9_action_failure_aborts_rest_witness :
    (∀ a ∈ [ActionOutcome.ok], a = ActionOutcome.ok) ∧
    run_actions ([ActionOutcome.ok] ++ .raises :: [ActionOutcome.ok])
      = ([ActionOutcome.ok].length + 1, false) :=
  ⟨by decide,
    (C9_action_failure_aborts_rest [ActionOutcome.ok] [ActionOutcome.ok]
      (by decide)).1⟩

/-- C7 counterexample: a reconfiguration call (`cond_mod = 'mod'`) at time 0
over a table holding one conditional with period 100 overwrites that
conditional's `cond_timer` entry from its previous value 5 to `0 + 100` —
the reconfiguration path does modify `cond_timer`. -/
theorem C7_counterexample_reconfig_writes_timer :
    (setup_sensor_conditionals .mod 0 [⟨1, 100⟩]
        (CondTimers.mk (fun _ => some 5) (fun _ => some 5))).map
        (fun s => s.cond_timer 1) = some (some 100) ∧
    some (100:ℚ) ≠ some (5:ℚ) := by
  constructor
  · simp [setup_sensor_conditionals]
  · simp

/-- C7 amended: the reconfiguration path (`cond_mod` in `'add'`, `'del'`,
`'mod'`) also writes `cond_timer`: for every conditional in the refreshed
table it reassigns `cond_timer[id] = now + if_sensor_period` (and
`smtp_wait_timer[id] = now + 3600`), preserving only the entries of
conditionals not in the table; so `cond_timer` is modified both by the
evaluator in the poll loop and by every reconfiguration. -/
theorem C7_reconfig_resets_timer (cond_mod : CondMod)
    (h : cond_mod = .add ∨ cond_mod = .del ∨ cond_mod = .mod)
    (now : ℚ) (c : CondRecord) (s : CondTimers) :
    setup_sensor_conditionals cond_mod now [c] s = some
      (CondTimers.mk
        (fun i => if i = c.id then some (now + c.if_sensor_period)
          else s.cond_timer i)
        (fun i => if i = c.id then some (now + 3600)
          else s.smtp_wait_timer i)) := by
  rcases h with rfl | rfl | rfl <;> rfl

/-- Witness for the amended C7 at `cond_mod = 'mod'`, time 0, one conditional
of id 1 and period 100, and previous timer entries all 5. -/
theorem C7_reconfig_resets_timer_witness :
    (CondMod.mod = CondMod.add ∨ CondMod.mod = CondMod.del ∨
      CondMod.mod = CondMod.mod) ∧
    setup_sensor_conditionals .mod 0 [⟨1, 100⟩]
        (CondTimers.mk (fun _ => some 5) (fun _ => some 5)) = some
      (CondTimers.mk
        (fun i => if i = 1 then some ((0:ℚ) + 100) else some 5)
        (fun i => if i = 1 then some ((0:ℚ) + 3600) else some 5)) :=
  ⟨Or.inr (Or.inr rfl),
    C7_reconfig_resets_timer .mod (Or.inr (Or.inr rfl)) 0 ⟨1, 100⟩
      (CondTimers.mk (fun _ => some 5) (fun _ => some 5))⟩

/-- C8 counterexample: with hourly maximum 3, window reset time 7200 and a
fresh controller, rule 1's email at time 40 is sent when no other rule has
emailed, but is suppressed after rule 2 has sent three emails (at times 10,
20, 30) — rule 2's notifications change rule 1's outcome, because the
counter is shared. -/
theorem C8_counterexample_shared_counter :
    (email_action 3 1 40 ⟨0, fun _ => 7200⟩).2.1 = true ∧
    (email_action 3 1 40
        (email_action 3 2 30
          (email_action 3 2 20
            (email_action 3 2 10 ⟨0, fun _ => 7200⟩).1).1).1).2.1
      = false := by
  constructor <;> norm_num [email_action]

/-- C8 amended: only the hourly-window reset timestamp is tracked per rule —
processing an email for rule B never changes rule A's `smtp_wait_timer`
entry — while the email counter is a single controller-wide value shared
across rules: every processed email action moves it to `old + 1` (or to `1`
after a window reset), so notifications for rule B do count against rule A's
hourly maximum. -/
theorem C8_per_rule_timer_shared_counter (m a b : ℕ) (t : ℚ)
    (s : EmailState) (hab : a ≠ b) :
    (email_action m b t s).1.smtp_wait_timer a = s.smtp_wait_timer a ∧
    ((email_action m b t s).1.email_count = s.email_count + 1 ∨
      (email_action m b t s).1.email_count = 1) := by
  simp only [email_action]
  split_ifs with hc hr
  · exact ⟨rfl, Or.inl rfl⟩
  · exact ⟨by simp [hab], Or.inr rfl⟩
  · exact ⟨rfl, Or.inl rfl⟩

/-- Witness for the amended C8: rules 1 and 2, hourly maximum 3, an email
processed for rule 2 at time 10 on a fresh controller. -/
theorem C8_per_rule_timer_shared_counter_witness :
    (1 ≠ 2) ∧
    ((email_action 3 2 10 ⟨0, fun _ => (7200:ℚ)⟩).1.smtp_wait_timer 1
        = (7200:ℚ) ∧
      ((email_action 3 2 10 ⟨0, fun _ => (7200:ℚ)⟩).1.email_count = 0 + 1 ∨
        (email_action 3 2 10 ⟨0, fun _ => (7200:ℚ)⟩).1.email_count = 1)) :=
  ⟨by decide,
    C8_per_rule_timer_shared_counter 3 1 2 10 ⟨0, fun _ => 7200⟩ (by decide)⟩

end ControllerSensor
